import Mathlib

/-!
Verification of the Brinson performance-attribution decomposition
implemented as `brinson_decomposition` in the notebook
`13_portfolio-evaluation.ipynb`.

The source function takes a table with one row per asset-class segment and
four columns `w_p`, `r_p`, `w_b`, `r_b`; we embed a row as a `SegmentRecord`
and the table as a `List SegmentRecord`.  Each column-wise pandas expression
`(df[c1] * df[c2]).sum()` becomes `(df.map fun s => s.c1 * s.c2).sum`.
Arithmetic is over `ℚ` (exact real arithmetic; the claims under study are
about the exact values, the floating-point tolerance clauses aside).
-/

namespace Brinson

/-- One row of the input table: a portfolio/benchmark segment with
portfolio weight `w_p`, portfolio return `r_p`, benchmark weight `w_b`
and benchmark return `r_b`.  The index label of the row (asset-class
name) is `segment_id`. -/
structure SegmentRecord where
  segment_id : String
  w_p : ℚ
  r_p : ℚ
  w_b : ℚ
  r_b : ℚ
deriving DecidableEq, Repr

/-- The dictionary returned by `brinson_decomposition`, with its six
entries as fields. -/
@[ext]
structure AttributionResult where
  portfolio_return : ℚ
  benchmark_return : ℚ
  asset_allocation : ℚ
  selection : ℚ
  interaction : ℚ
  total_difference : ℚ
deriving DecidableEq, Repr

/-- Embedding of `brinson_decomposition(df)` from
`13_portfolio-evaluation.ipynb`.  The intermediate variables mirror the
source: `r_p`, `r_b`, the three decomposition components, and
`total_diff = r_p - r_b`. -/
def brinson_decomposition (df : List SegmentRecord) : AttributionResult :=
  let r_p := (df.map fun s => s.w_p * s.r_p).sum
  let r_b := (df.map fun s => s.w_b * s.r_b).sum
  let asset_allocation := (df.map fun s => (s.w_p - s.w_b) * s.r_b).sum
  let selection := (df.map fun s => s.w_b * (s.r_p - s.r_b)).sum
  let interaction := (df.map fun s => (s.w_p - s.w_b) * (s.r_p - s.r_b)).sum
  let total_diff := r_p - r_b
  { portfolio_return := r_p
    benchmark_return := r_b
    asset_allocation := asset_allocation
    selection := selection
    interaction := interaction
    total_difference := total_diff }

/-- The spec's summation formulas for `decompose`, written out exactly as
§4.1 of the specification states them (used to compare the implementation
against the spec, claim C2). -/
def decompose_spec (segments : List SegmentRecord) : AttributionResult :=
  { portfolio_return := (segments.map fun s => s.w_p * s.r_p).sum
    benchmark_return := (segments.map fun s => s.w_b * s.r_b).sum
    asset_allocation := (segments.map fun s => (s.w_p - s.w_b) * s.r_b).sum
    selection := (segments.map fun s => s.w_b * (s.r_p - s.r_b)).sum
    interaction := (segments.map fun s => (s.w_p - s.w_b) * (s.r_p - s.r_b)).sum
    total_difference := (segments.map fun s => s.w_p * s.r_p).sum
      - (segments.map fun s => s.w_b * s.r_b).sum }

/-- Swapping the roles of portfolio and benchmark in one segment:
`w_p ↔ w_b` and `r_p ↔ r_b`. -/
def swapRoles (s : SegmentRecord) : SegmentRecord :=
  { segment_id := s.segment_id
    w_p := s.w_b
    r_p := s.r_b
    w_b := s.w_p
    r_b := s.r_p }

/-- The three-segment reference table `df_brinson` built in the example
cell of the notebook (Equity / Bond / RealEstate rows). -/
def df_brinson : List SegmentRecord :=
  [ { segment_id := "Equity", w_p := 0.60, r_p := 0.10, w_b := 0.50, r_b := 0.08 }
  , { segment_id := "Bond", w_p := 0.30, r_p := 0.02, w_b := 0.40, r_b := 0.03 }
  , { segment_id := "RealEstate", w_p := 0.10, r_p := 0.08, w_b := 0.10, r_b := 0.07 } ]

/-- Two-segment table used to exhibit the failure of the naive
portfolio/benchmark symmetry claim. -/
def df_swap_demo : List SegmentRecord :=
  [ { segment_id := "A", w_p := 0.6, r_p := 0.1, w_b := 0.5, r_b := 0.08 }
  , { segment_id := "B", w_p := 0.4, r_p := 0.02, w_b := 0.5, r_b := 0.03 } ]

/-- Two-segment table whose portfolio and benchmark weights agree
segment by segment (used as the equal-weights witness). -/
def df_equal_weights : List SegmentRecord :=
  [ { segment_id := "A", w_p := 0.7, r_p := 0.1, w_b := 0.7, r_b := 0.04 }
  , { segment_id := "B", w_p := 0.3, r_p := 0.02, w_b := 0.3, r_b := 0.05 } ]

lemma portfolio_return_eq (df : List SegmentRecord) :
    (brinson_decomposition df).portfolio_return = (df.map fun s => s.w_p * s.r_p).sum := rfl

lemma benchmark_return_eq (df : List SegmentRecord) :
    (brinson_decomposition df).benchmark_return = (df.map fun s => s.w_b * s.r_b).sum := rfl

lemma asset_allocation_eq (df : List SegmentRecord) :
    (brinson_decomposition df).asset_allocation
      = (df.map fun s => (s.w_p - s.w_b) * s.r_b).sum := rfl

lemma selection_eq (df : List SegmentRecord) :
    (brinson_decomposition df).selection
      = (df.map fun s => s.w_b * (s.r_p - s.r_b)).sum := rfl

lemma interaction_eq (df : List SegmentRecord) :
    (brinson_decomposition df).interaction
      = (df.map fun s => (s.w_p - s.w_b) * (s.r_p - s.r_b)).sum := rfl

lemma total_difference_eq (df : List SegmentRecord) :
    (brinson_decomposition df).total_difference
      = (df.map fun s => s.w_p * s.r_p).sum - (df.map fun s => s.w_b * s.r_b).sum := rfl

/-- Per-segment Brinson identity summed over the whole table: the three
component sums add up to the difference of the two weighted-return sums. -/
lemma sum_components_eq (df : List SegmentRecord) :
    (df.map fun s => (s.w_p - s.w_b) * s.r_b).sum
      + (df.map fun s => s.w_b * (s.r_p - s.r_b)).sum
      + (df.map fun s => (s.w_p - s.w_b) * (s.r_p - s.r_b)).sum
    = (df.map fun s => s.w_p * s.r_p).sum - (df.map fun s => s.w_b * s.r_b).sum := by
  induction df with
  | nil => simp
  | cons s t ih =>
    simp only [List.map_cons, List.sum_cons]
    linear_combination ih

/-- Claim C1: for every non-empty list of segments, the decomposition
satisfies `asset_allocation + selection + interaction = total_difference`
exactly over ℚ. -/
theorem additivity_invariant (df : List SegmentRecord) (_h : df ≠ []) :
    (brinson_decomposition df).asset_allocation
      + (brinson_decomposition df).selection
      + (brinson_decomposition df).interaction
    = (brinson_decomposition df).total_difference := by
  rw [asset_allocation_eq, selection_eq, interaction_eq, total_difference_eq]
  exact sum_components_eq df

/-- Witness for C1: the additivity invariant instantiated at the
three-segment reference table. -/
theorem additivity_invariant_witness :
    (brinson_decomposition df_brinson).asset_allocation
      + (brinson_decomposition df_brinson).selection
      + (brinson_decomposition df_brinson).interaction
    = (brinson_decomposition df_brinson).total_difference :=
  additivity_invariant df_brinson (by decide)

/-- Claim C2: on every non-empty list of segments the implementation
returns exactly the six quantities given by the spec's summation
formulas. -/
theorem decompose_matches_spec (df : List SegmentRecord) (_h : df ≠ []) :
    brinson_decomposition df = decompose_spec df := rfl

/-- Witness for C2: the implementation matches the spec formulas on the
three-segment reference table. -/
theorem decompose_matches_spec_witness :
    brinson_decomposition df_brinson = decompose_spec df_brinson :=
  decompose_matches_spec df_brinson (by decide)

/-- Counterexample to C3 as stated: on the reference table the exact
decomposition terms are not 0.006 / 0.008 / 0.001; already the
asset-allocation term differs (it is 0.005). -/
theorem literal_scenario_claim_false :
    ¬ ((brinson_decomposition df_brinson).asset_allocation = 0.006
      ∧ (brinson_decomposition df_brinson).selection = 0.008
      ∧ (brinson_decomposition df_brinson).interaction = 0.001) := by
  intro hc
  have h1 := hc.1
  rw [asset_allocation_eq] at h1
  norm_num [df_brinson] at h1

/-- Claim C3 amended: on the reference table, exact arithmetic yields
`portfolio_return = 0.074`, `benchmark_return = 0.059`,
`asset_allocation = 0.005`, `selection = 0.007`, `interaction = 0.003`,
`total_difference = 0.015`. -/
theorem literal_scenario_values :
    brinson_decomposition df_brinson
      = { portfolio_return := 0.074
          benchmark_return := 0.059
          asset_allocation := 0.005
          selection := 0.007
          interaction := 0.003
          total_difference := 0.015 } := by
  simp only [brinson_decomposition, df_brinson, List.map_cons, List.map_nil,
    List.sum_cons, List.sum_nil, AttributionResult.mk.injEq]
  norm_num

/-- Counterexample to C4 as stated: applied to the empty table, the
implementation does not fail with an error; it returns a normal
`AttributionResult` (with every field 0, the empty sums). -/
theorem empty_input_returns_result :
    brinson_decomposition []
      = { portfolio_return := 0
          benchmark_return := 0
          asset_allocation := 0
          selection := 0
          interaction := 0
          total_difference := 0 } := by
  simp only [brinson_decomposition, List.map_nil, List.sum_nil, AttributionResult.mk.injEq]
  norm_num

/-- Claim C4 amended: `brinson_decomposition` performs no validation on
any input — on every list of segments, including the empty one and ones
whose weights lie outside [0,1] or do not sum to 1, it returns the
result computed by the summation formulas as given. -/
theorem no_validation_computed_as_given (df : List SegmentRecord) :
    brinson_decomposition df = decompose_spec df := rfl

/-- Counterexample to C5 as stated: on a concrete two-segment table,
swapping portfolio and benchmark does not negate `asset_allocation`
(nor `selection`); only `total_difference` is negated and `interaction`
preserved. -/
theorem swap_claim_false :
    ¬ ((brinson_decomposition (df_swap_demo.map swapRoles)).total_difference
          = -(brinson_decomposition df_swap_demo).total_difference
      ∧ (brinson_decomposition (df_swap_demo.map swapRoles)).asset_allocation
          = -(brinson_decomposition df_swap_demo).asset_allocation
      ∧ (brinson_decomposition (df_swap_demo.map swapRoles)).selection
          = -(brinson_decomposition df_swap_demo).selection
      ∧ (brinson_decomposition (df_swap_demo.map swapRoles)).interaction
          = (brinson_decomposition df_swap_demo).interaction) := by
  intro hc
  have h2 := hc.2.1
  rw [asset_allocation_eq, asset_allocation_eq] at h2
  norm_num [df_swap_demo, swapRoles] at h2

lemma sum_map_congr (f g : SegmentRecord → ℚ) (h : ∀ s, f s = g s)
    (l : List SegmentRecord) : (l.map f).sum = (l.map g).sum := by
  rw [List.map_congr_left fun s _ => h s]

lemma sum_map_neg (f : SegmentRecord → ℚ) (l : List SegmentRecord) :
    (l.map fun s => -(f s)).sum = -((l.map f).sum) := by
  induction l with
  | nil => simp
  | cons a t ih => simp only [List.map_cons, List.sum_cons, ih]; ring

lemma sum_map_add_split (f g : SegmentRecord → ℚ) (l : List SegmentRecord) :
    (l.map fun s => f s + g s).sum = (l.map f).sum + (l.map g).sum := by
  induction l with
  | nil => simp
  | cons a t ih => simp only [List.map_cons, List.sum_cons, ih]; ring

lemma sum_map_sub_split (f g : SegmentRecord → ℚ) (l : List SegmentRecord) :
    (l.map fun s => f s - g s).sum = (l.map f).sum - (l.map g).sum := by
  induction l with
  | nil => simp
  | cons a t ih => simp only [List.map_cons, List.sum_cons, ih]; ring

/-- Claim C5 amended: for every non-empty list of segments, swapping the
roles of portfolio and benchmark negates `total_difference` and leaves
`interaction` unchanged — but `asset_allocation` becomes
`-(asset_allocation + interaction)` and `selection` becomes
`-(selection + interaction)`, not the plain negations. -/
theorem swap_roles_effect (df : List SegmentRecord) (_h : df ≠ []) :
    (brinson_decomposition (df.map swapRoles)).total_difference
        = -(brinson_decomposition df).total_difference
    ∧ (brinson_decomposition (df.map swapRoles)).interaction
        = (brinson_decomposition df).interaction
    ∧ (brinson_decomposition (df.map swapRoles)).asset_allocation
        = -((brinson_decomposition df).asset_allocation
            + (brinson_decomposition df).interaction)
    ∧ (brinson_decomposition (df.map swapRoles)).selection
        = -((brinson_decomposition df).selection
            + (brinson_decomposition df).interaction) := by
  refine ⟨?_, ?_, ?_, ?_⟩
  · rw [total_difference_eq, total_difference_eq, List.map_map, List.map_map]
    simp only [Function.comp_def, swapRoles]
    ring
  · rw [interaction_eq, interaction_eq, List.map_map]
    simp only [Function.comp_def, swapRoles]
    exact sum_map_congr _ _ (fun s => by ring) df
  · rw [asset_allocation_eq, asset_allocation_eq, interaction_eq, List.map_map]
    simp only [Function.comp_def, swapRoles]
    rw [← sum_map_add_split, ← sum_map_neg]
    exact sum_map_congr _ _ (fun s => by ring) df
  · rw [selection_eq, selection_eq, interaction_eq, List.map_map]
    simp only [Function.comp_def, swapRoles]
    rw [← sum_map_add_split, ← sum_map_neg]
    exact sum_map_congr _ _ (fun s => by ring) df

/-- Witness for C5 (amended): the swap identities instantiated at the
two-segment table. -/
theorem swap_roles_effect_witness :
    df_swap_demo ≠ []
    ∧ ((brinson_decomposition (df_swap_demo.map swapRoles)).total_difference
          = -(brinson_decomposition df_swap_demo).total_difference
      ∧ (brinson_decomposition (df_swap_demo.map swapRoles)).interaction
          = (brinson_decomposition df_swap_demo).interaction
      ∧ (brinson_decomposition (df_swap_demo.map swapRoles)).asset_allocation
          = -((brinson_decomposition df_swap_demo).asset_allocation
              + (brinson_decomposition df_swap_demo).interaction)
      ∧ (brinson_decomposition (df_swap_demo.map swapRoles)).selection
          = -((brinson_decomposition df_swap_demo).selection
              + (brinson_decomposition df_swap_demo).interaction)) :=
  ⟨by decide, swap_roles_effect df_swap_demo (by decide)⟩

/-- Claim C6: on a single segment with `w_p = w_b = 1` and arbitrary
returns, the allocation and interaction effects vanish and the selection
effect is exactly `r_p - r_b`. -/
theorem single_segment_reduction (sid : String) (rp rb : ℚ) :
    (brinson_decomposition
        [{ segment_id := sid, w_p := 1, r_p := rp, w_b := 1, r_b := rb }]).asset_allocation = 0
    ∧ (brinson_decomposition
        [{ segment_id := sid, w_p := 1, r_p := rp, w_b := 1, r_b := rb }]).interaction = 0
    ∧ (brinson_decomposition
        [{ segment_id := sid, w_p := 1, r_p := rp, w_b := 1, r_b := rb }]).selection = rp - rb := by
  refine ⟨?_, ?_, ?_⟩
  · rw [asset_allocation_eq]
    simp only [List.map_cons, List.map_nil, List.sum_cons, List.sum_nil]
    ring
  · rw [interaction_eq]
    simp only [List.map_cons, List.map_nil, List.sum_cons, List.sum_nil]
    ring
  · rw [selection_eq]
    simp only [List.map_cons, List.map_nil, List.sum_cons, List.sum_nil]
    ring

/-- Claim C7: if every segment has equal portfolio and benchmark weight
and equal portfolio and benchmark return, all three decomposition terms
and the total difference are exactly 0. -/
theorem zero_difference_case (df : List SegmentRecord) (_hne : df ≠ [])
    (h : ∀ s ∈ df, s.w_p = s.w_b ∧ s.r_p = s.r_b) :
    (brinson_decomposition df).asset_allocation = 0
    ∧ (brinson_decomposition df).selection = 0
    ∧ (brinson_decomposition df).interaction = 0
    ∧ (brinson_decomposition df).total_difference = 0 := by
  refine ⟨?_, ?_, ?_, ?_⟩
  · rw [asset_allocation_eq]
    refine List.sum_eq_zero fun x hx => ?_
    obtain ⟨s, hs, rfl⟩ := List.mem_map.1 hx
    rw [(h s hs).1]
    ring
  · rw [selection_eq]
    refine List.sum_eq_zero fun x hx => ?_
    obtain ⟨s, hs, rfl⟩ := List.mem_map.1 hx
    rw [(h s hs).2]
    ring
  · rw [interaction_eq]
    refine List.sum_eq_zero fun x hx => ?_
    obtain ⟨s, hs, rfl⟩ := List.mem_map.1 hx
    rw [(h s hs).1]
    ring
  · rw [total_difference_eq]
    have e : df.map (fun s => s.w_p * s.r_p) = df.map (fun s => s.w_b * s.r_b) :=
      List.map_congr_left fun s hs => by rw [(h s hs).1, (h s hs).2]
    rw [e, sub_self]

/-- Witness for C7: a concrete one-segment table with identical
portfolio and benchmark data yields the zero decomposition. -/
theorem zero_difference_case_witness :
    ([{ segment_id := "A", w_p := 0.5, r_p := 0.1, w_b := 0.5, r_b := 0.1 }]
        ≠ ([] : List SegmentRecord))
    ∧ (∀ s ∈ [({ segment_id := "A", w_p := 0.5, r_p := 0.1, w_b := 0.5, r_b := 0.1 }
          : SegmentRecord)], s.w_p = s.w_b ∧ s.r_p = s.r_b)
    ∧ ((brinson_decomposition
          [{ segment_id := "A", w_p := 0.5, r_p := 0.1, w_b := 0.5, r_b := 0.1 }]).asset_allocation = 0
      ∧ (brinson_decomposition
          [{ segment_id := "A", w_p := 0.5, r_p := 0.1, w_b := 0.5, r_b := 0.1 }]).selection = 0
      ∧ (brinson_decomposition
          [{ segment_id := "A", w_p := 0.5, r_p := 0.1, w_b := 0.5, r_b := 0.1 }]).interaction = 0
      ∧ (brinson_decomposition
          [{ segment_id := "A", w_p := 0.5, r_p := 0.1, w_b := 0.5, r_b := 0.1 }]).total_difference = 0) := by
  have h : ∀ s ∈ [({ segment_id := "A", w_p := 0.5, r_p := 0.1, w_b := 0.5, r_b := 0.1 }
      : SegmentRecord)], s.w_p = s.w_b ∧ s.r_p = s.r_b := by
    intro s hs
    rw [List.mem_singleton] at hs
    subst hs
    exact ⟨rfl, rfl⟩
  exact ⟨by simp, h, zero_difference_case _ (by simp) h⟩

/-- Claim C8 (implicit): the implementation applied to the empty table
does not fail; all six result fields are exactly 0. -/
theorem empty_input_all_fields_zero :
    (brinson_decomposition []).portfolio_return = 0
    ∧ (brinson_decomposition []).benchmark_return = 0
    ∧ (brinson_decomposition []).asset_allocation = 0
    ∧ (brinson_decomposition []).selection = 0
    ∧ (brinson_decomposition []).interaction = 0
    ∧ (brinson_decomposition []).total_difference = 0 := by
  refine ⟨rfl, rfl, rfl, rfl, rfl, ?_⟩
  rw [total_difference_eq]
  simp

/-- Claim C9 (implicit): the decomposition is invariant under
permutations of the segment list. -/
theorem perm_invariant (df₁ df₂ : List SegmentRecord) (h : df₁.Perm df₂) :
    brinson_decomposition df₁ = brinson_decomposition df₂ := by
  have e : ∀ f : SegmentRecord → ℚ, (df₁.map f).sum = (df₂.map f).sum :=
    fun f => (h.map f).sum_eq
  ext
  · rw [portfolio_return_eq, portfolio_return_eq, e]
  · rw [benchmark_return_eq, benchmark_return_eq, e]
  · rw [asset_allocation_eq, asset_allocation_eq, e]
  · rw [selection_eq, selection_eq, e]
  · rw [interaction_eq, interaction_eq, e]
  · rw [total_difference_eq, total_difference_eq, e, e]

/-- Witness for C9: reversing the two-segment demo table leaves the
decomposition unchanged. -/
theorem perm_invariant_witness :
    df_swap_demo.Perm df_swap_demo.reverse
    ∧ brinson_decomposition df_swap_demo
        = brinson_decomposition df_swap_demo.reverse :=
  ⟨(List.reverse_perm df_swap_demo).symm,
    perm_invariant _ _ (List.reverse_perm df_swap_demo).symm⟩

/-- Claim C10 (implicit): when every segment carries equal portfolio and
benchmark weight, allocation and interaction vanish and the whole return
gap is attributed to selection. -/
theorem equal_weights_pure_selection (df : List SegmentRecord) (_hne : df ≠ [])
    (h : ∀ s ∈ df, s.w_p = s.w_b) :
    (brinson_decomposition df).asset_allocation = 0
    ∧ (brinson_decomposition df).interaction = 0
    ∧ (brinson_decomposition df).selection = (brinson_decomposition df).total_difference := by
  refine ⟨?_, ?_, ?_⟩
  · rw [asset_allocation_eq]
    refine List.sum_eq_zero fun x hx => ?_
    obtain ⟨s, hs, rfl⟩ := List.mem_map.1 hx
    rw [h s hs]
    ring
  · rw [interaction_eq]
    refine List.sum_eq_zero fun x hx => ?_
    obtain ⟨s, hs, rfl⟩ := List.mem_map.1 hx
    rw [h s hs]
    ring
  · rw [selection_eq, total_difference_eq, ← sum_map_sub_split]
    refine congrArg List.sum (List.map_congr_left fun s hs => ?_)
    rw [h s hs]
    ring

/-- Witness for C10: a concrete two-segment equal-weight table attributes
the whole return gap to selection. -/
theorem equal_weights_pure_selection_witness :
    (df_equal_weights ≠ [])
    ∧ (∀ s ∈ df_equal_weights, s.w_p = s.w_b)
    ∧ ((brinson_decomposition df_equal_weights).asset_allocation = 0
      ∧ (brinson_decomposition df_equal_weights).interaction = 0
      ∧ (brinson_decomposition df_equal_weights).selection
          = (brinson_decomposition df_equal_weights).total_difference) := by
  have h : ∀ s ∈ df_equal_weights, s.w_p = s.w_b := by
    intro s hs
    fin_cases hs <;> rfl
  exact ⟨by simp [df_equal_weights], h, equal_weights_pure_selection _ (by simp [df_equal_weights]) h⟩

end Brinson
